import Mathlib

/-
Verification development for the evidence-pipeline heuristic engine.

The definitions below are a shallow embedding of the Python modules
src/agent/record_classifier_agent.py, src/agent/ingestion_assistant_agent.py
and src/agent/repair_agent.py.  Cell values of a tabular source are modelled
by the inductive type Value; pandas missing-data semantics (NaN, None) and
the relevant Python string operations (str, strip, lower, substring test,
startswith) are modelled explicitly.  Python floats are modelled by rationals;
the pipeline never does float arithmetic, it only tests floats for NaN and
occasionally renders them as text.
-/

namespace EvidencePipeline

/-- A Python value as it appears in a pandas cell or column label:
a string, an int, a (finite) float, the float NaN, or None. -/
inductive Value where
  | vStr (s : String)
  | vInt (n : Int)
  | vFloat (q : ℚ)
  | vNan
  | vNone
  deriving DecidableEq, Repr

/-- pd.isna / pd.isnull on a scalar: true exactly for NaN and None. -/
def isNA : Value → Bool
  | .vNan => true
  | .vNone => true
  | _ => false

/-- Python truthiness of a value (used by the confidence computation,
which tests column labels with a bare if). NaN is truthy in Python. -/
def pyTruthy : Value → Bool
  | .vStr s => !(s == "")
  | .vInt n => !(n == 0)
  | .vFloat q => !(q == 0)
  | .vNan => true
  | .vNone => false

/-- Left-pad a string with zeros to length k. -/
def padZeros (s : String) (k : Nat) : String :=
  String.mk (List.replicate (k - s.length) '0') ++ s

/-- Python str of a finite float.  Faithful for values with a finite decimal
expansion (the only floats the pipeline sources contain); other rationals
render as a fraction, which no embedded code path ever inspects. -/
def floatRepr (q : ℚ) : String :=
  if q.den = 1 then toString q.num ++ ".0"
  else
    match (List.range 18).find? (fun k => (q * (10 : ℚ) ^ k).den = 1) with
    | some k =>
      let m := (q.num.natAbs * 10 ^ k) / q.den
      let sign := if q.num < 0 then "-" else ""
      sign ++ toString (m / 10 ^ k) ++ "." ++ padZeros (toString (m % 10 ^ k)) k
    | none => toString q.num ++ "/" ++ toString q.den

/-- Python str of a value. str(None) is the text "None"; str(nan) is "nan". -/
def pyStr : Value → String
  | .vStr s => s
  | .vInt n => toString n
  | .vFloat q => floatRepr q
  | .vNan => "nan"
  | .vNone => "None"

/-- Python str.strip restricted to whitespace. -/
def pyStrip (s : String) : String :=
  String.mk (((s.data.dropWhile Char.isWhitespace).reverse.dropWhile Char.isWhitespace).reverse)

/-- Python str.lower (ASCII, which is all the pipeline vocabulary uses). -/
def pyLower (s : String) : String :=
  String.mk (s.data.map Char.toLower)

/-- Substring containment on char lists. -/
def listContainsSub (needle hay : List Char) : Bool :=
  (List.range (hay.length + 1)).any (fun i => needle.isPrefixOf (hay.drop i))

/-- Python membership test needle in hay on strings. -/
def substrIn (needle hay : String) : Bool :=
  listContainsSub needle.data hay.data

/-- Python str.startswith. -/
def pyStartswith (s p : String) : Bool :=
  p.data.isPrefixOf s.data

/-! ## Record classifier (record_classifier_agent.py, classify_row) -/

/-- One harmonised row as consumed by RecordClassifierAgent.classify_row.
A field equal to none models a key that is missing from the row; a present
key may still hold the null markers vNan or vNone. -/
structure Row where
  local_authority_code : Option Value
  region : Option Value
  country : Option Value
  mid_year_population_thousands : Option Value
  area_km2 : Option Value
  la_ghg_sector : Option Value
  la_ghg_sub_sector : Option Value
  deriving DecidableEq, Repr

/-- Rule 1 of classify_row: str(row.get("local_authority_code", "")).strip()
is outside the null-marker list (a str can never equal Python None, so only
the two string markers matter) and population and area are both non-null. -/
def rule_local_authority (row : Row) : Bool :=
  let la_code := pyStrip (pyStr (row.local_authority_code.getD (Value.vStr "")))
  !(la_code == "" || la_code == "nan") &&
    !isNA (row.mid_year_population_thousands.getD Value.vNone) &&
    !isNA (row.area_km2.getD Value.vNone)

/-- pd.isnull(row.get("local_authority_code")): the key is missing (get
yields None) or holds a null marker. -/
def codeIsNull (row : Row) : Bool :=
  isNA (row.local_authority_code.getD Value.vNone)

/-- Rule 2 of classify_row: subsector non-null and code field null. -/
def rule_subsector (row : Row) : Bool :=
  !isNA (row.la_ghg_sub_sector.getD Value.vNone) && codeIsNull row

/-- Rule 3 of classify_row: sector non-null and code field null. -/
def rule_sector (row : Row) : Bool :=
  !isNA (row.la_ghg_sector.getD Value.vNone) && codeIsNull row

/-- Rule 4 of classify_row: region non-null and code field null. -/
def rule_regional_aggregate (row : Row) : Bool :=
  !isNA (row.region.getD Value.vNone) && codeIsNull row

/-- Rule 5 of classify_row: country equals the fixed national label and the
region field is null.  Python equality of an arbitrary value against a
string constant coincides with constructor-level equality here. -/
def rule_national_aggregate (row : Row) : Bool :=
  (row.country.getD Value.vNone == Value.vStr "United Kingdom") &&
    isNA (row.region.getD Value.vNone)

/-- RecordClassifierAgent.classify_row: the ordered rule cascade. -/
def classify_row (row : Row) : String :=
  if rule_local_authority row then "local_authority"
  else if rule_subsector row then "subsector"
  else if rule_sector row then "sector"
  else if rule_regional_aggregate row then "regional_aggregate"
  else if rule_national_aggregate row then "national_aggregate"
  else "unknown"

/-! ## Header and sheet locator (ingestion_assistant_agent.py) -/

/-- The fixed header vocabulary HEADER_TOKENS. -/
def HEADER_TOKENS : List String :=
  ["local authority", "la code", "local authority code", "code", "name",
   "co2", "emissions", "territorial", "kt"]

/-- The helper normalising a cell for text matching:
str(x).strip().lower() if pd.notna(x) else "". -/
def normalise_str (x : Value) : String :=
  if isNA x then "" else pyLower (pyStrip (pyStr x))

/-- score_row_for_header: one point per vocabulary token contained in some
normalised cell, plus one point if at least 3 cells are non-empty. -/
def score_row_for_header (cells : List Value) : Nat :=
  let text_cells := cells.map normalise_str
  let score := (HEADER_TOKENS.filter (fun t => text_cells.any (fun c => substrIn t c))).length
  let non_empty := (text_cells.filter (fun c => !(c == ""))).length
  if 3 ≤ non_empty then score + 1 else score

/-- The running best fold of detect_header_row: best_row starts at 0,
best_score at the -1 sentinel, and a row replaces the best only on a
strictly greater score. -/
def headerFold (score : Nat → Int) (limit : Nat) : Nat × Int :=
  (List.range limit).foldl
    (fun best idx => if best.2 < score idx then (idx, score idx) else best) (0, -1)

/-- The header score of row j of a table (rows beyond the table score as an
empty row, which the scan never reaches). -/
def rowScoreAt (df : List (List Value)) (j : Nat) : Int :=
  ((score_row_for_header (df.getD j [])) : Int)

/-- detect_header_row: scan rows 0 .. min(max_scan, len(df)) - 1 and return
the best row index. -/
def detect_header_row (df : List (List Value)) (max_scan : Nat) : Nat :=
  (headerFold (rowScoreAt df) (min max_scan df.length)).1

/-! ## Column role detection (ingestion_assistant_agent.py) -/

/-- One pandas column: its label and its cell values in row order. -/
structure Col where
  name : Value
  values : List Value
  deriving DecidableEq, Repr

/-- A pandas DataFrame as the ordered list of its columns. -/
abbrev DataFrame := List Col

/-- LA_CODE_REGEX = ^[EWNS][0-9A-Z]{8}$ applied with re.match to a stripped
string: exactly 9 characters, first in EWNS, the rest digits or A-Z. -/
def la_code_match (s : String) : Bool :=
  match s.data with
  | c :: rest =>
    (c == 'E' || c == 'W' || c == 'N' || c == 'S') &&
      (rest.length == 8) && rest.all (fun d => d.isDigit || ('A' ≤ d && d ≤ 'Z'))
  | [] => false

/-- The name-based code-column test of detect_la_columns. -/
def laCodeNameCond (c : Col) : Bool :=
  let norm := normalise_str c.name
  substrIn "local authority code" norm || norm == "la code" ||
    (substrIn "code" norm && substrIn "authority" norm)

/-- The value-based fallback test of detect_la_columns:
df[col].dropna().astype(str).head(50) holds at least 5 regex matches. -/
def laCodeValueCond (c : Col) : Bool :=
  let sample_vals := ((c.values.filter (fun v => !isNA v)).map pyStr).take 50
  5 ≤ (sample_vals.filter (fun v => la_code_match (pyStrip v))).length

/-- The name-column test of detect_la_columns. -/
def laNameCond (c : Col) : Bool :=
  let norm := normalise_str c.name
  substrIn "local authority" norm && !substrIn "code" norm

/-- The result dict of detect_la_columns. -/
structure LaCols where
  la_code_col : Option Value
  la_name_col : Option Value
  deriving DecidableEq, Repr

/-- detect_la_columns: the name-based pass runs first (first matching column
in column order wins); only when it finds nothing does the value-based
sampling pass run; the name column is detected independently. -/
def detect_la_columns (df : DataFrame) : LaCols :=
  let la_code_col :=
    match df.find? laCodeNameCond with
    | some c => some c.name
    | none => (df.find? laCodeValueCond).map (fun c => c.name)
  let la_name_col := (df.find? laNameCond).map (fun c => c.name)
  ⟨la_code_col, la_name_col⟩

/-- Digits to a natural number. -/
def digitsVal (ds : List Char) : Nat :=
  ds.foldl (fun a c => a * 10 + (c.toNat - 48)) 0

/-- A model of Python float(s) as used by pd.to_numeric(errors="coerce") on
text: optional sign, decimal mantissa with at least one digit, optional
exponent.  Unparsable text coerces to NaN, modelled as none.  The exotic
spellings inf and nan are modelled as unparsable; no pipeline source
contains them. -/
def parseFloatQ (s : String) : Option ℚ :=
  let cs := (pyStrip s).data
  let signAndRest : ℚ × List Char :=
    match cs with
    | '+' :: r => (1, r)
    | '-' :: r => (-1, r)
    | r => (1, r)
  let sgn := signAndRest.1
  let (ip, cs₂) := signAndRest.2.span Char.isDigit
  let dotAndRest : Bool × List Char :=
    match cs₂ with
    | '.' :: r => (true, r)
    | r => (false, r)
  let (fp, cs₄) :=
    if dotAndRest.1 then dotAndRest.2.span Char.isDigit else ([], dotAndRest.2)
  if ip.isEmpty && fp.isEmpty then none
  else
    let mant : ℚ := (digitsVal ip : ℚ) + (digitsVal fp : ℚ) / ((10 : ℚ) ^ fp.length)
    match cs₄ with
    | [] => some (sgn * mant)
    | c :: r =>
      if c == 'e' || c == 'E' then
        let esignAndRest : Int × List Char :=
          match r with
          | '+' :: r2 => (1, r2)
          | '-' :: r2 => (-1, r2)
          | r2 => (1, r2)
        let (ed, rest) := esignAndRest.2.span Char.isDigit
        if ed.isEmpty || !rest.isEmpty then none
        else some (sgn * mant * (10 : ℚ) ^ (esignAndRest.1 * (digitsVal ed : Int)))
      else none

/-- pd.to_numeric(x, errors="coerce") on one cell: numbers pass through,
NaN and None coerce to null, text is parsed as a float when possible. -/
def pyToNumeric : Value → Option ℚ
  | .vInt n => some (n : ℚ)
  | .vFloat q => some q
  | .vNan => none
  | .vNone => none
  | .vStr s => parseFloatQ s

/-- The result dict of detect_year_and_value_columns. -/
structure YearValueCols where
  year_columns : List Value
  value_columns : List Value
  deriving DecidableEq, Repr

/-- detect_year_and_value_columns: the first loop collects four-digit headers
as year columns and token-matching headers as value columns (continue makes
the two cases exclusive there); when the token pass found no value column a
fallback loop over every column, year columns included, collects each column
in which strictly more than half the cells coerce to numbers. -/
def detect_year_and_value_columns (df : DataFrame) : YearValueCols :=
  let firstPass := df.foldl
    (fun (acc : List Value × List Value) c =>
      let norm := normalise_str c.name
      if norm.length == 4 && norm.data.all Char.isDigit then (acc.1 ++ [c.name], acc.2)
      else if ["emissions", "co2", "kt", "tonnes"].any (fun t => substrIn t norm) then
        (acc.1, acc.2 ++ [c.name])
      else acc) ([], [])
  let value_cols :=
    if firstPass.2.isEmpty then
      df.foldl
        (fun (acc : List Value) c =>
          let non_null : Nat := ((c.values.map pyToNumeric).filter (fun o => o.isSome)).length
          if c.values.length < 2 * non_null then acc ++ [c.name] else acc) []
    else firstPass.2
  ⟨firstPass.1, value_cols⟩

/-! ## Excel and CSV analysis (ingestion_assistant_agent.py) -/

/-- The analysis result dict returned by analyse_excel / analyse_csv. -/
structure Analysis where
  file_path : String
  file_type : String
  recommended_sheet : Option String
  recommended_header_row : Nat
  probable_la_code_column : Option Value
  probable_la_name_column : Option Value
  probable_year_columns : List Value
  probable_value_columns : List Value
  issues_detected : List String
  notes : List String
  confidence : ℚ
  deriving DecidableEq, Repr

/-- The per-sheet score of the analyse_excel loop, on the bounded row prefix
the loop reads: base score (header score of the detected header row plus its
non-null cell count) plus the naming-convention, hint and column-pattern
adjustments, in source order.  Python hint truthiness: None and the empty
string are falsy. -/
def sheetScore (name : String) (tmp : List (List Value)) (hint : Option String) : Int :=
  let header_row := detect_header_row tmp 15
  let hr := tmp.getD header_row []
  let header_score := score_row_for_header hr
  let non_empty_cols := (hr.filter (fun v => !isNA v)).length
  let s : Int := (header_score : Int) + (non_empty_cols : Int)
  let s := if pyStartswith name "2_" then s + 10 else s
  let s := if pyStartswith name "1_" then s - 6 else s
  let s :=
    match hint with
    | none => s
    | some h =>
      if h == "" then s
      else if substrIn "la" (pyLower h) then
        let s := if pyStartswith name "2_" then s + 4 else s
        if pyStartswith name "1_" then s - 4 else s
      else s
  let cols := hr.map normalise_str
  let s := if cols.any (fun c => substrIn "authority" c) then s + 3 else s
  let s := if cols.any (fun c => substrIn "code" c) then s + 2 else s
  if cols.any (fun c => substrIn "calendar year" c) then s + 2 else s

/-- Loading the chosen sheet with the chosen header row, as
pd.read_excel(..., header=row) does: the header row supplies the column
labels, the rows below supply the values.  Pandas renaming of missing and
duplicate header labels is not modelled; no proved property depends on it. -/
def dfFromRows (rows : List (List Value)) (header : Nat) : DataFrame :=
  let headerRow := rows.getD header []
  let dataRows := rows.drop (header + 1)
  (List.range headerRow.length).map
    (fun j => ⟨headerRow.getD j Value.vNan, dataRows.map (fun r => r.getD j Value.vNan)⟩)

/-- The rational 9/10, the exact value of the Python float 0.9, written as a
normalised fraction so that the kernel can evaluate comparisons on it. -/
def conf09 : ℚ := ⟨9, 10, by norm_num, by norm_num⟩

/-- The rational 1/2, the exact value of the Python float 0.5. -/
def conf05 : ℚ := ⟨1, 2, by norm_num, by norm_num⟩

/-- The rational 7/10, the exact value of the Python float 0.7. -/
def conf07 : ℚ := ⟨7, 10, by norm_num, by norm_num⟩

/-- The confidence tiers of analyse_excel / analyse_csv, exactly as coded:
0.7 default, 0.9 when both detected column labels are Python-truthy, else
0.5 when the value-column list is empty. -/
def confidenceFrom (la : LaCols) (yv : YearValueCols) : ℚ :=
  if (match la.la_code_col with | some v => pyTruthy v | none => false) &&
     (match la.la_name_col with | some v => pyTruthy v | none => false) then conf09
  else if yv.value_columns.isEmpty then conf05
  else conf07

/-- Truthiness of an optional detected column label, as the bare Python if
tests it: None is falsy, a present label is tested for truthiness. -/
def truthyOpt : Option Value → Bool
  | some v => pyTruthy v
  | none => false

/-- The metadata-sheet stoplist of analyse_excel. -/
def sheetStoplist : List String := ["cover", "contents", "notes"]

/-- analyse_excel: filter the stoplist (falling back to all sheets when the
filter empties the list), score every candidate sheet keeping the first
strict maximum, load the winning sheet at its detected header row, run the
column detectors and derive the confidence.  Each sheet contributes its
first 25 rows to scoring, with the header scan capped at 15 rows.  A
workbook always has at least one sheet, so the headD default is never used
on real input. -/
def analyse_excel (pathStr : String) (sheets : List (String × List (List Value)))
    (hint : Option String) : Analysis :=
  let filtered := sheets.filter (fun sc => !(sheetStoplist.contains (pyLower sc.1)))
  let issues0 := if filtered.isEmpty then ["No obvious data sheets; using all sheets."] else []
  let candidate_sheets := if filtered.isEmpty then sheets else filtered
  let init : String × Int × Nat := ((candidate_sheets.headD ("", [])).1, -1, 0)
  let best := candidate_sheets.foldl
    (fun best sc =>
      let tmp := sc.2.take 25
      let header_row := detect_header_row tmp 15
      let score := sheetScore sc.1 tmp hint
      if best.2.1 < score then (sc.1, score, header_row) else best) init
  let note := "Selected sheet \x27" ++ best.1 ++ "\x27 with header row " ++
    toString best.2.2 ++ " (score=" ++ toString best.2.1 ++ ")."
  let best_rows := ((sheets.find? (fun sc => sc.1 == best.1)).map (fun sc => sc.2)).getD []
  let df := dfFromRows best_rows best.2.2
  let la_cols := detect_la_columns df
  let yv := detect_year_and_value_columns df
  let issues := issues0 ++
    (if la_cols.la_code_col.isNone then ["Could not detect a Local Authority code column."] else []) ++
    (if la_cols.la_name_col.isNone then ["Could not detect a Local Authority name column."] else [])
  { file_path := pathStr, file_type := "excel", recommended_sheet := some best.1,
    recommended_header_row := best.2.2,
    probable_la_code_column := la_cols.la_code_col,
    probable_la_name_column := la_cols.la_name_col,
    probable_year_columns := yv.year_columns,
    probable_value_columns := yv.value_columns,
    issues_detected := issues, notes := [note],
    confidence := confidenceFrom la_cols yv }

/-- analyse_csv: run the column detectors on the frame read from the file
(the reader, an external collaborator, reads at most 200 rows) and derive
the confidence; a CSV has no sheet and header row 0. -/
def analyse_csv (pathStr : String) (df : DataFrame) : Analysis :=
  let la_cols := detect_la_columns df
  let yv := detect_year_and_value_columns df
  let issues :=
    (if la_cols.la_code_col.isNone then ["Could not detect a Local Authority code column."] else []) ++
    (if la_cols.la_name_col.isNone then ["Could not detect a Local Authority name column."] else [])
  { file_path := pathStr, file_type := "csv", recommended_sheet := none,
    recommended_header_row := 0,
    probable_la_code_column := la_cols.la_code_col,
    probable_la_name_column := la_cols.la_name_col,
    probable_year_columns := yv.year_columns,
    probable_value_columns := yv.value_columns,
    issues_detected := issues, notes := [],
    confidence := confidenceFrom la_cols yv }

/-! ## Public entry point analyze_file (ingestion_assistant_agent.py) -/

/-- What reading a source yields: a workbook of named sheets, a CSV frame,
or bytes of neither shape. -/
inductive SourceContent where
  | excel (sheets : List (String × List (List Value)))
  | csv (df : DataFrame)
  | other
  deriving DecidableEq, Repr

/-- A raw source as analyze_file sees it: its path, whether the path exists,
and what reading it yields. -/
structure Source where
  path : String
  found : Bool
  content : SourceContent
  deriving DecidableEq, Repr

/-- The errors analyze_file can raise: FileNotFoundError, the ValueError
for an unsupported extension, and a reader failure on a file whose bytes do
not match its extension (raised inside pandas, outside this module). -/
inductive AnalysisError where
  | notFound (path : String)
  | unsupportedFormat (sfx : String)
  | readError
  deriving DecidableEq, Repr

deriving instance DecidableEq for Except

/-- The last path component as a char list. -/
def lastComponent (p : String) : List Char :=
  p.data.foldl (fun acc c => if c == '/' then [] else acc ++ [c]) []

/-- pathlib Path(p).suffix: the extension of the last component including
its dot; empty for no dot, a leading dot (hidden file) or a trailing dot. -/
def pathSuffix (p : String) : String :=
  let name := lastComponent p
  let ext := name.reverse.takeWhile (fun c => !(c == '.'))
  if ext.length == name.length then ""
  else if ext.isEmpty then ""
  else if name.length == ext.length + 1 then ""
  else String.mk ('.' :: ext.reverse)

/-- The trailing hint note analyze_file appends when the hint is truthy. -/
def withHintNote (a : Analysis) (hint : Option String) : Analysis :=
  match hint with
  | none => a
  | some h => if h == "" then a else { a with notes := a.notes ++ ["Hint provided: " ++ h] }

/-- analyze_file: existence check first, then dispatch on the lower-cased
extension; an extension outside the supported set raises the
unsupported-format error. -/
def analyze_file (src : Source) (hint : Option String) : Except AnalysisError Analysis :=
  if !src.found then .error (.notFound src.path)
  else
    let sfx := pyLower (pathSuffix src.path)
    if sfx == ".xlsx" || sfx == ".xls" then
      match src.content with
      | .excel sheets => .ok (withHintNote (analyse_excel src.path sheets hint) hint)
      | _ => .error .readError
    else if sfx == ".csv" then
      match src.content with
      | .csv df => .ok (withHintNote (analyse_csv src.path df) hint)
      | _ => .error .readError
    else .error (.unsupportedFormat sfx)

/-! ## Diagnostic recommender (repair_agent.py) -/

/-- The issues dict of a validation event, as DiagnosticAgent reads it. -/
structure ValidationIssues where
  missing_values : List (String × Nat)
  invalid_la_code_count : Nat
  out_of_range_years : Nat
  numeric_null_counts : List (String × Nat)
  deriving DecidableEq, Repr

/-- Recommendation text for invalid LA codes. -/
def msgInvalidCodes : String :=
  "Check rows with invalid LA codes. These often correspond to sector-level entries rather than LA summaries."

/-- Recommendation text for missing values. -/
def msgMissing : String :=
  "Investigate missing values in population and area fields — often structural for non-LA geo entries."

/-- Recommendation text for out-of-range years. -/
def msgYears : String :=
  "Remove or correct rows with year values outside 2005–2022."

/-- The no-issues recommendation text. -/
def msgNoIssues : String :=
  "No major issues detected. Data appears structurally sound."

/-- sum(issues["missing_values"].values()). -/
def missingTotal (issues : ValidationIssues) : Nat :=
  (issues.missing_values.map (fun kv => kv.2)).sum

/-- DiagnosticAgent.recommend_actions: append each fixed recommendation when
its count is positive, in source order, and fall back to the single
no-issues message when nothing was appended. -/
def recommend_actions (issues : ValidationIssues) : List String :=
  let actions : List String := []
  let actions := if 0 < issues.invalid_la_code_count then actions ++ [msgInvalidCodes] else actions
  let actions := if 0 < missingTotal issues then actions ++ [msgMissing] else actions
  let actions := if 0 < issues.out_of_range_years then actions ++ [msgYears] else actions
  if actions.isEmpty then [msgNoIssues] else actions

/-! ## Generic facts about the running-best fold -/

/-- Unfolding one step of the running-best scan. -/
theorem headerFold_succ (score : Nat → Int) (n : Nat) :
    headerFold score (n + 1) =
      (if (headerFold score n).2 < score n then (n, score n) else headerFold score n) := by
  simp [headerFold, List.range_succ]

/-- The running-best fold over a non-empty scan range returns the earliest
index of maximal score, together with that score: the result index is in
range, the recorded score is the score of the result index, every scanned
index scores at most the recorded score, and every index before the result
scores strictly less (so equal scores keep the earliest row). -/
theorem headerFold_spec (score : Nat → Int) (h0 : ∀ i, 0 ≤ score i) :
    ∀ limit, 0 < limit →
      (headerFold score limit).1 < limit ∧
      (headerFold score limit).2 = score (headerFold score limit).1 ∧
      (∀ j, j < limit → score j ≤ (headerFold score limit).2) ∧
      (∀ j, j < (headerFold score limit).1 → score j < (headerFold score limit).2) := by
  intro limit
  induction limit with
  | zero => omega
  | succ n ih =>
    intro _
    rcases Nat.eq_zero_or_pos n with hn | hn
    · subst hn
      have hneg : (0, (-1 : Int)).2 < score 0 := lt_of_lt_of_le (by norm_num) (h0 0)
      have h1 : headerFold score 1 = (0, score 0) := by
        simp only [headerFold, List.range_succ, List.range_zero, List.nil_append,
          List.foldl_cons, List.foldl_nil, if_pos hneg]
      rw [h1]
      refine ⟨Nat.zero_lt_one, rfl, ?_, ?_⟩
      · intro j hj
        have hj0 : j = 0 := by omega
        subst hj0
        exact le_refl _
      · intro j hj
        omega
    · have IH := ih hn
      rw [headerFold_succ]
      by_cases hc : (headerFold score n).2 < score n
      · rw [if_pos hc]
        refine ⟨Nat.lt_succ_self n, rfl, ?_, ?_⟩
        · intro j hj
          rcases Nat.lt_succ_iff_lt_or_eq.mp hj with h | h
          · exact le_of_lt (lt_of_le_of_lt (IH.2.2.1 j h) hc)
          · subst h
            exact le_refl _
        · intro j hj
          exact lt_of_le_of_lt (IH.2.2.1 j hj) hc
      · rw [if_neg hc]
        refine ⟨Nat.lt_succ_of_lt IH.1, IH.2.1, ?_, IH.2.2.2⟩
        intro j hj
        rcases Nat.lt_succ_iff_lt_or_eq.mp hj with h | h
        · exact IH.2.2.1 j h
        · subst h
          exact le_of_not_lt hc

/-! ## Claim C2 -/

/-- Claim C2, amended: whenever the scan range min(maxScan, rowCount) is
non-empty, detect_header_row returns an index inside [0, min(maxScan,
rowCount)) that scores at least every scanned row, and every earlier row
scores strictly less (ties keep the earliest row; an unscanned row never
wins).  When the scan range is empty — an empty table or maxScan = 0 — the
function returns the default 0, which is not a valid index of the scan
range; this is the one point on which the original claim fails. -/
theorem detect_header_row_range_and_tiebreak (df : List (List Value)) (max_scan : Nat) :
    (0 < min max_scan df.length →
      detect_header_row df max_scan < min max_scan df.length ∧
      (∀ j, j < min max_scan df.length →
        rowScoreAt df j ≤ rowScoreAt df (detect_header_row df max_scan)) ∧
      (∀ j, j < detect_header_row df max_scan →
        rowScoreAt df j < rowScoreAt df (detect_header_row df max_scan)))
  ∧ (min max_scan df.length = 0 → detect_header_row df max_scan = 0) := by
  constructor
  · intro h
    have h0 : ∀ i, 0 ≤ rowScoreAt df i := fun i => Int.natCast_nonneg _
    have spec := headerFold_spec (rowScoreAt df) h0 (min max_scan df.length) h
    simp only [detect_header_row]
    refine ⟨spec.1, ?_, ?_⟩
    · intro j hj
      have hle := spec.2.2.1 j hj
      rw [spec.2.1] at hle
      exact hle
    · intro j hj
      have hlt := spec.2.2.2 j hj
      rw [spec.2.1] at hlt
      exact hlt
  · intro h
    simp [detect_header_row, headerFold, h]

/-- A concrete two-row table exercising claim C2: the second row is the
header and the returned index is inside the scan range. -/
def c2Df : List (List Value) :=
  [[Value.vStr "x"],
   [Value.vStr "Local Authority Code", Value.vStr "2019", Value.vStr "name"]]

/-- Witness for claim C2 at a concrete table. -/
theorem detect_header_row_range_witness :
    detect_header_row c2Df 20 < min 20 c2Df.length :=
  ((detect_header_row_range_and_tiebreak c2Df 20).1 (by decide)).1

/-- Counterexample to claim C2 as stated: on the empty table the scan range
[0, min(20, 0)) is empty, yet detect_header_row returns 0, so the returned
index is not within the claimed interval. -/
theorem detect_header_row_empty_counterexample :
    detect_header_row ([] : List (List Value)) 20 = 0 ∧
    ¬ detect_header_row ([] : List (List Value)) 20 <
        min 20 (List.length ([] : List (List Value))) := by
  decide

/-! ## Claim C1 -/

/-- The scenario row of claim C1: code "E06000001", population 150000,
area 245.3. -/
def c1Row : Row :=
  ⟨some (Value.vStr "E06000001"), none, none, some (Value.vInt 150000),
   some (Value.vFloat ⟨2453, 10, by norm_num, by norm_num⟩), none, none⟩

/-- Claim C1: a harmonised row whose entity code is present (its stripped
text is neither empty nor the null marker "nan") and whose population and
area are both non-null is labelled local_authority; conversely a row whose
entity-code field is absent — missing from the row, or holding the pandas
missing-data marker NaN — is never labelled local_authority; and the
scenario row is labelled local_authority. -/
theorem classify_row_local_authority_rule :
    (∀ row : Row,
      pyStrip (pyStr (row.local_authority_code.getD (Value.vStr ""))) ≠ "" →
      pyStrip (pyStr (row.local_authority_code.getD (Value.vStr ""))) ≠ "nan" →
      isNA (row.mid_year_population_thousands.getD Value.vNone) = false →
      isNA (row.area_km2.getD Value.vNone) = false →
      classify_row row = "local_authority")
  ∧ (∀ row : Row,
      row.local_authority_code = none ∨ row.local_authority_code = some Value.vNan →
      classify_row row ≠ "local_authority")
  ∧ classify_row c1Row = "local_authority" := by
  refine ⟨?_, ?_, by decide⟩
  · intro row h1 h2 h3 h4
    have hr : rule_local_authority row = true := by
      simp [rule_local_authority, h1, h2, h3, h4]
    simp [classify_row, hr]
  · intro row h
    have hr : rule_local_authority row = false := by
      rcases h with h | h
      · have he : pyStrip (pyStr (Value.vStr "")) = "" := by decide
        simp [rule_local_authority, h, he]
      · have he : pyStrip (pyStr Value.vNan) = "nan" := by decide
        simp [rule_local_authority, h, he]
    simp only [classify_row, hr, if_false, Bool.false_eq_true]
    split_ifs <;> decide

/-- Witness for claim C1: the first conjunct applied at the scenario row. -/
theorem classify_row_local_authority_witness : classify_row c1Row = "local_authority" :=
  classify_row_local_authority_rule.1 c1Row (by decide) (by decide) (by decide) (by decide)

/-! ## Claim C4 -/

/-- Claim C4: classify_row is total — on every row it returns one label of
the fixed six-label set — and when none of the five cascade rules fires it
returns the default label unknown. -/
theorem classify_row_total_and_default (row : Row) :
    (classify_row row = "local_authority" ∨ classify_row row = "subsector" ∨
     classify_row row = "sector" ∨ classify_row row = "regional_aggregate" ∨
     classify_row row = "national_aggregate" ∨ classify_row row = "unknown")
  ∧ (rule_local_authority row = false → rule_subsector row = false →
     rule_sector row = false → rule_regional_aggregate row = false →
     rule_national_aggregate row = false → classify_row row = "unknown") := by
  constructor
  · unfold classify_row
    split_ifs <;> decide
  · intro h1 h2 h3 h4 h5
    simp [classify_row, h1, h2, h3, h4, h5]

/-- A row with every field missing: no rule fires. -/
def emptyRow : Row := ⟨none, none, none, none, none, none, none⟩

/-- Witness for claim C4: the default branch at the all-missing row. -/
theorem classify_row_total_witness : classify_row emptyRow = "unknown" :=
  (classify_row_total_and_default emptyRow).2
    (by decide) (by decide) (by decide) (by decide) (by decide)

/-! ## Claim C3 -/

/-- Claim C3: recommend_actions returns the applicable fixed recommendation
strings in the fixed order invalid-codes, missing-values, out-of-range
years, each included exactly when its count is positive; when every count
is zero the result is exactly the singleton no-major-issues list. -/
theorem recommend_actions_spec (issues : ValidationIssues) :
    (0 < issues.invalid_la_code_count ∨ 0 < missingTotal issues ∨
        0 < issues.out_of_range_years →
      recommend_actions issues =
        (if 0 < issues.invalid_la_code_count then [msgInvalidCodes] else []) ++
        (if 0 < missingTotal issues then [msgMissing] else []) ++
        (if 0 < issues.out_of_range_years then [msgYears] else []))
  ∧ (issues.invalid_la_code_count = 0 ∧ missingTotal issues = 0 ∧
        issues.out_of_range_years = 0 →
      recommend_actions issues = [msgNoIssues]) := by
  constructor
  · intro h
    by_cases h1 : 0 < issues.invalid_la_code_count <;>
      by_cases h2 : 0 < missingTotal issues <;>
        by_cases h3 : 0 < issues.out_of_range_years <;>
          (simp [recommend_actions, h1, h2, h3]; try omega)
  · rintro ⟨e1, e2, e3⟩
    simp [recommend_actions, e1, e2, e3]

/-- The scenario issues of claim C3: three invalid codes, nothing else. -/
def c3Issues : ValidationIssues := ⟨[], 3, 0, []⟩

/-- Witness for claim C3: the scenario summary yields exactly the single
invalid-codes recommendation. -/
theorem recommend_actions_witness : recommend_actions c3Issues = [msgInvalidCodes] := by
  have h := (recommend_actions_spec c3Issues).1 (Or.inl (by decide))
  simpa using h

/-! ## Claim C5 -/

/-- find? skips a block of elements on which the predicate is false. -/
theorem find?_append_of_forall_false {α : Type} (p : α → Bool) (l₁ l₂ : List α)
    (h : ∀ x ∈ l₁, p x = false) : List.find? p (l₁ ++ l₂) = List.find? p l₂ := by
  induction l₁ with
  | nil => rfl
  | cons a t ih =>
    have ha : p a = false := h a (List.mem_cons_self a t)
    rw [List.cons_append, List.find?_cons_of_neg _ (by simp [ha])]
    exact ih (fun x hx => h x (List.mem_cons_of_mem a hx))

/-- Claim C5: code-column detection runs the name-based pass first and in
column order — the earliest column passing the name test wins, so of two
name-matching columns the first is chosen; only when no column passes the
name test does the value-sampling pass run, again in column order, choosing
the first column whose sample (the first 50 non-null values as stripped
text) holds at least 5 matches of the fixed nine-character code pattern;
when neither pass matches any column the code column is none — never
guessed. -/
theorem detect_la_code_column_precedence :
    (∀ (pre post : List Col) (c : Col),
      (∀ x ∈ pre, laCodeNameCond x = false) → laCodeNameCond c = true →
      (detect_la_columns (pre ++ c :: post)).la_code_col = some c.name)
  ∧ (∀ (pre post : List Col) (c : Col),
      (∀ x ∈ pre ++ c :: post, laCodeNameCond x = false) →
      (∀ x ∈ pre, laCodeValueCond x = false) → laCodeValueCond c = true →
      (detect_la_columns (pre ++ c :: post)).la_code_col = some c.name)
  ∧ (∀ df : DataFrame,
      (∀ x ∈ df, laCodeNameCond x = false ∧ laCodeValueCond x = false) →
      (detect_la_columns df).la_code_col = none) := by
  refine ⟨?_, ?_, ?_⟩
  · intro pre post c hpre hc
    have hf : List.find? laCodeNameCond (pre ++ c :: post) = some c := by
      rw [find?_append_of_forall_false _ _ _ hpre]
      exact List.find?_cons_of_pos _ hc
    simp [detect_la_columns, hf]
  · intro pre post c hall hpre hc
    have hn : List.find? laCodeNameCond (pre ++ c :: post) = none :=
      List.find?_eq_none.mpr (fun x hx => by simp [hall x hx])
    have hv : List.find? laCodeValueCond (pre ++ c :: post) = some c := by
      rw [find?_append_of_forall_false _ _ _ hpre]
      exact List.find?_cons_of_pos _ hc
    simp [detect_la_columns, hn, hv]
  · intro df h
    have hn : List.find? laCodeNameCond df = none :=
      List.find?_eq_none.mpr (fun x hx => by simp [(h x hx).1])
    have hv : List.find? laCodeValueCond df = none :=
      List.find?_eq_none.mpr (fun x hx => by simp [(h x hx).2])
    simp [detect_la_columns, hn, hv]

/-- Two columns that both match the authority-code name heuristic. -/
def c5Df : DataFrame :=
  [⟨Value.vStr "Authority Code A", []⟩, ⟨Value.vStr "Authority Code B", []⟩]

/-- Witness for claim C5: of two name-matching columns the first in column
order is chosen. -/
theorem detect_la_code_column_witness :
    (detect_la_columns c5Df).la_code_col = some (Value.vStr "Authority Code A") := by
  have h := detect_la_code_column_precedence.1 []
    [⟨Value.vStr "Authority Code B", []⟩] ⟨Value.vStr "Authority Code A", []⟩
    (by simp) (by decide)
  simpa using h

/-! ## Claim C6 -/

/-- A name starting with "1_" does not start with "2_". -/
theorem pyStartswith_one_not_two (s : String) (h : pyStartswith s "1_" = true) :
    pyStartswith s "2_" = false := by
  have h1 : "1_".data = ['1', '_'] := rfl
  have h2 : "2_".data = ['2', '_'] := rfl
  rw [pyStartswith, h1] at h
  rw [pyStartswith, h2]
  cases hd : s.data with
  | nil =>
    rw [hd] at h
    simp [List.isPrefixOf] at h
  | cons a t =>
    rw [hd] at h
    simp only [List.isPrefixOf, Bool.and_eq_true, beq_iff_eq] at h
    obtain ⟨ha, -⟩ := h
    subst ha
    have hcc : (('2' : Char) == '1') = false := rfl
    simp [List.isPrefixOf, hcc]

/-- A name starting with "2_" does not start with "1_". -/
theorem pyStartswith_two_not_one (s : String) (h : pyStartswith s "2_" = true) :
    pyStartswith s "1_" = false := by
  have h1 : "1_".data = ['1', '_'] := rfl
  have h2 : "2_".data = ['2', '_'] := rfl
  rw [pyStartswith, h2] at h
  rw [pyStartswith, h1]
  cases hd : s.data with
  | nil =>
    rw [hd] at h
    simp [List.isPrefixOf] at h
  | cons a t =>
    rw [hd] at h
    simp only [List.isPrefixOf, Bool.and_eq_true, beq_iff_eq] at h
    obtain ⟨ha, -⟩ := h
    subst ha
    have hcc : (('1' : Char) == '2') = false := rfl
    simp [List.isPrefixOf, hcc]

/-- Claim C6: on identical scanned row content and with no hint, a sheet
named with the "2_" detail prefix scores at least 16 points more than a
sheet named with the "1_" summary prefix (in fact exactly 16 more: the +10
bonus minus the −6 penalty; every other score component depends only on the
rows). -/
theorem sheet_score_prefix_gap (n1 n2 : String) (rows : List (List Value))
    (h1 : pyStartswith n1 "1_" = true) (h2 : pyStartswith n2 "2_" = true) :
    sheetScore n1 rows none + 16 ≤ sheetScore n2 rows none := by
  have e1 : pyStartswith n1 "2_" = false := pyStartswith_one_not_two n1 h1
  have e2 : pyStartswith n2 "1_" = false := pyStartswith_two_not_one n2 h2
  simp only [sheetScore, h1, h2, e1, e2, if_true, if_false, Bool.false_eq_true,
    Bool.true_eq_false, ite_true, ite_false]
  split_ifs <;> omega

/-- Witness for claim C6 at concrete sheet names and rows. -/
theorem sheet_score_prefix_gap_witness :
    sheetScore "1_Summary" [[Value.vStr "code"]] none + 16 ≤
      sheetScore "2_Detail" [[Value.vStr "code"]] none :=
  sheet_score_prefix_gap "1_Summary" "2_Detail" [[Value.vStr "code"]]
    (by decide) (by decide)

/-! ## Claim C7 -/

/-- The three-tier shape of the confidence computation, for one detection
result: 0.9 exactly when both detected labels are truthy, 0.5 exactly when
they are not both truthy and the value-column list is empty, and the value
is always one of the three tiers. -/
theorem confidenceFrom_cases (la : LaCols) (yv : YearValueCols) :
    (confidenceFrom la yv = conf09 ↔
      (truthyOpt la.la_code_col && truthyOpt la.la_name_col) = true)
  ∧ (confidenceFrom la yv = conf05 ↔
      (truthyOpt la.la_code_col && truthyOpt la.la_name_col) = false ∧
        yv.value_columns = [])
  ∧ (confidenceFrom la yv = conf09 ∨ confidenceFrom la yv = conf07 ∨
      confidenceFrom la yv = conf05) := by
  have hd1 : conf09 ≠ conf05 := by decide
  have hd2 : conf07 ≠ conf09 := by decide
  have hd3 : conf05 ≠ conf09 := by decide
  have hd4 : conf07 ≠ conf05 := by decide
  have hm : ∀ o : Option Value, (match o with | some v => pyTruthy v | none => false) =
      truthyOpt o := by
    intro o
    cases o <;> rfl
  cases hb : (truthyOpt la.la_code_col && truthyOpt la.la_name_col) with
  | true =>
    have hc : confidenceFrom la yv = conf09 := by
      simp only [confidenceFrom, hm, hb, if_true]
    refine ⟨by simp [hc], ?_, Or.inl hc⟩
    rw [hc]
    constructor
    · intro he
      exact absurd he hd1
    · rintro ⟨hf, -⟩
      exact absurd hf (by decide)
  | false =>
    cases he : yv.value_columns.isEmpty with
    | true =>
      have hel : yv.value_columns = [] := List.isEmpty_iff.mp he
      have hc : confidenceFrom la yv = conf05 := by
        simp only [confidenceFrom, hm, hb, he, Bool.false_eq_true, if_false, if_true]
      refine ⟨?_, ?_, Or.inr (Or.inr hc)⟩
      · rw [hc]
        constructor
        · intro hcontra
          exact absurd hcontra hd3
        · intro hcontra
          exact absurd hcontra (by decide)
      · rw [hc]
        exact ⟨fun _ => ⟨rfl, hel⟩, fun _ => rfl⟩
    | false =>
      have hnel : ¬ yv.value_columns = [] := by
        intro hcontra
        rw [hcontra] at he
        exact absurd he (by decide)
      have hc : confidenceFrom la yv = conf07 := by
        simp only [confidenceFrom, hm, hb, he, Bool.false_eq_true, if_false]
      refine ⟨?_, ?_, Or.inr (Or.inl hc)⟩
      · rw [hc]
        constructor
        · intro hcontra
          exact absurd hcontra hd2
        · intro hcontra
          exact absurd hcontra (by decide)
      · rw [hc]
        constructor
        · intro hcontra
          exact absurd hcontra hd4
        · rintro ⟨-, hcontra⟩
          exact absurd hcontra hnel

/-- Claim C7, amended: for every analysed source (CSV or Excel) the
confidence is conf09 = 0.9 exactly when both detected column labels are
Python-truthy (a label such as the integer 0, found by the value-sampling
pass, is resolved but falsy, which is the one point on which the original
claim fails), conf05 = 0.5 exactly when the labels are not both truthy and
no value columns were found, and conf07 = 0.7 in every other case; the
confidence is always one of the three tier values 0.9, 0.5, 0.7. -/
theorem analysis_confidence_tiers :
    (conf09 = 9 / 10 ∧ conf05 = 1 / 2 ∧ conf07 = 7 / 10)
  ∧ (∀ (p : String) (df : DataFrame),
      ((analyse_csv p df).confidence = conf09 ↔
        (truthyOpt (analyse_csv p df).probable_la_code_column &&
          truthyOpt (analyse_csv p df).probable_la_name_column) = true) ∧
      ((analyse_csv p df).confidence = conf05 ↔
        (truthyOpt (analyse_csv p df).probable_la_code_column &&
          truthyOpt (analyse_csv p df).probable_la_name_column) = false ∧
        (analyse_csv p df).probable_value_columns = []) ∧
      ((analyse_csv p df).confidence = conf09 ∨
       (analyse_csv p df).confidence = conf07 ∨
       (analyse_csv p df).confidence = conf05))
  ∧ (∀ (p : String) (sheets : List (String × List (List Value))) (hint : Option String),
      ((analyse_excel p sheets hint).confidence = conf09 ↔
        (truthyOpt (analyse_excel p sheets hint).probable_la_code_column &&
          truthyOpt (analyse_excel p sheets hint).probable_la_name_column) = true) ∧
      ((analyse_excel p sheets hint).confidence = conf05 ↔
        (truthyOpt (analyse_excel p sheets hint).probable_la_code_column &&
          truthyOpt (analyse_excel p sheets hint).probable_la_name_column) = false ∧
        (analyse_excel p sheets hint).probable_value_columns = []) ∧
      ((analyse_excel p sheets hint).confidence = conf09 ∨
       (analyse_excel p sheets hint).confidence = conf07 ∨
       (analyse_excel p sheets hint).confidence = conf05)) := by
  refine ⟨⟨?_, ?_, ?_⟩, ?_, ?_⟩
  · rw [conf09, Rat.mk'_eq_divInt, Rat.divInt_eq_div]
    norm_num
  · rw [conf05, Rat.mk'_eq_divInt, Rat.divInt_eq_div]
    norm_num
  · rw [conf07, Rat.mk'_eq_divInt, Rat.divInt_eq_div]
    norm_num
  · intro p df
    exact confidenceFrom_cases (detect_la_columns df) (detect_year_and_value_columns df)
  · intro p sheets hint
    exact confidenceFrom_cases _ _

/-- The dataframe refuting claim C7 as stated: the first column is labelled
by the integer 0 (a falsy but perfectly resolved label) and holds five valid
LA codes, so the value-sampling pass resolves it as the code column; the
second column is the name column by name; no value columns exist. -/
def c7Df : DataFrame :=
  [⟨Value.vInt 0,
    [Value.vStr "E06000001", Value.vStr "E06000002", Value.vStr "E06000003",
     Value.vStr "E06000004", Value.vStr "E06000005"]⟩,
   ⟨Value.vStr "local authority",
    [Value.vStr "a", Value.vStr "b", Value.vStr "c", Value.vStr "d", Value.vStr "e"]⟩]

/-- Counterexample to claim C7 as stated: on c7Df both the code column and
the name column are resolved, yet the confidence is not 0.9 (it is 0.5,
because the resolved code-column label 0 is falsy in Python). -/
theorem analyse_csv_confidence_counterexample :
    (analyse_csv "data.csv" c7Df).probable_la_code_column.isSome = true ∧
    (analyse_csv "data.csv" c7Df).probable_la_name_column.isSome = true ∧
    (analyse_csv "data.csv" c7Df).confidence ≠ 9 / 10 := by
  refine ⟨by decide, by decide, ?_⟩
  have hc : (analyse_csv "data.csv" c7Df).confidence = conf05 := by decide
  rw [hc, conf05, Rat.mk'_eq_divInt, Rat.divInt_eq_div]
  norm_num

/-- Witness for claim C7: the amended tier rule evaluated at c7Df. -/
theorem analysis_confidence_tiers_witness :
    (analyse_csv "data.csv" c7Df).confidence = conf05 :=
  ((analysis_confidence_tiers.2.1 "data.csv" c7Df).2.1).mpr ⟨by decide, by decide⟩

/-! ## Claim C8 -/

/-- Claim C8, amended: analyze_file fails with the not-found error exactly
when the source path does not exist; it fails with the unsupported-format
error exactly when the path exists and its lower-cased extension is outside
the supported set (so a missing path with an unsupported extension fails
with not-found, not unsupported-format — the one point on which the
original claim fails); and on an existing path with a supported extension
neither of those two errors is possible. -/
theorem analyze_file_error_semantics (src : Source) (hint : Option String) :
    (analyze_file src hint = .error (.notFound src.path) ↔ src.found = false)
  ∧ (analyze_file src hint =
        .error (.unsupportedFormat (pyLower (pathSuffix src.path))) ↔
      src.found = true ∧
        pyLower (pathSuffix src.path) ∉ ([".xlsx", ".xls", ".csv"] : List String))
  ∧ (src.found = true →
      pyLower (pathSuffix src.path) ∈ ([".xlsx", ".xls", ".csv"] : List String) →
      ∀ e, analyze_file src hint = .error e → e = .readError) := by
  cases hf : src.found with
  | false =>
    refine ⟨by simp [analyze_file, hf], by simp [analyze_file, hf], ?_⟩
    intro hcontra
    exact absurd hcontra (by decide)
  | true =>
    by_cases hx : (pyLower (pathSuffix src.path) == ".xlsx" ||
        pyLower (pathSuffix src.path) == ".xls") = true
    · have hmem : pyLower (pathSuffix src.path) ∈ ([".xlsx", ".xls", ".csv"] : List String) := by
        rcases Bool.or_eq_true_iff.mp hx with h | h
        · simp [beq_iff_eq.mp h]
        · simp [beq_iff_eq.mp h]
      cases hc : src.content with
      | excel sheets =>
        refine ⟨by simp [analyze_file, hf, hx, hc], ?_, ?_⟩
        · simp [analyze_file, hf, hx, hc, hmem]
        · intro _ _ e he
          simp [analyze_file, hf, hx, hc] at he
      | csv df =>
        refine ⟨by simp [analyze_file, hf, hx, hc], ?_, ?_⟩
        · simp [analyze_file, hf, hx, hc, hmem]
        · intro _ _ e he
          simp [analyze_file, hf, hx, hc] at he
          exact he.symm
      | other =>
        refine ⟨by simp [analyze_file, hf, hx, hc], ?_, ?_⟩
        · simp [analyze_file, hf, hx, hc, hmem]
        · intro _ _ e he
          simp [analyze_file, hf, hx, hc] at he
          exact he.symm
    · by_cases hcsv : (pyLower (pathSuffix src.path) == ".csv") = true
      · have hmem : pyLower (pathSuffix src.path) ∈ ([".xlsx", ".xls", ".csv"] : List String) := by
          simp [beq_iff_eq.mp hcsv]
        cases hc : src.content with
        | excel sheets =>
          refine ⟨by simp [analyze_file, hf, hx, hcsv, hc], ?_, ?_⟩
          · simp [analyze_file, hf, hx, hcsv, hc, hmem]
          · intro _ _ e he
            simp [analyze_file, hf, hx, hcsv, hc] at he
            exact he.symm
        | csv df =>
          refine ⟨by simp [analyze_file, hf, hx, hcsv, hc], ?_, ?_⟩
          · simp [analyze_file, hf, hx, hcsv, hc, hmem]
          · intro _ _ e he
            simp [analyze_file, hf, hx, hcsv, hc] at he
        | other =>
          refine ⟨by simp [analyze_file, hf, hx, hcsv, hc], ?_, ?_⟩
          · simp [analyze_file, hf, hx, hcsv, hc, hmem]
          · intro _ _ e he
            simp [analyze_file, hf, hx, hcsv, hc] at he
            exact he.symm
      · have hnmem : pyLower (pathSuffix src.path) ∉ ([".xlsx", ".xls", ".csv"] : List String) := by
          intro hmem
          simp only [List.mem_cons, List.not_mem_nil, or_false] at hmem
          rcases hmem with h | h | h
          · exact hx (by simp [h])
          · exact hx (by simp [h])
          · exact hcsv (by simp [h])
        refine ⟨?_, ?_, ?_⟩
        · simp [analyze_file, hf, hx, hcsv]
        · simp [analyze_file, hf, hx, hcsv, hnmem]
        · intro _ hmem
          exact absurd hmem hnmem

/-- Counterexample to claim C8 as stated: the path "data.txt" has an
extension outside {csv, xlsx, xls}, yet when the path does not exist the
call fails with the not-found error, not the unsupported-format error —
so failing with unsupported-format is not equivalent to having an
unsupported extension. -/
theorem analyze_file_missing_unsupported_counterexample :
    pyLower (pathSuffix "data.txt") ∉ ([".xlsx", ".xls", ".csv"] : List String) ∧
    analyze_file ⟨"data.txt", false, SourceContent.other⟩ none =
      .error (.notFound "data.txt") ∧
    analyze_file ⟨"data.txt", false, SourceContent.other⟩ none ≠
      .error (.unsupportedFormat (pyLower (pathSuffix "data.txt"))) := by
  decide

/-- Witness for claim C8: the amended rule applied at a concrete existing
source with an unsupported extension. -/
theorem analyze_file_error_semantics_witness :
    analyze_file ⟨"data.txt", true, SourceContent.other⟩ none =
      .error (.unsupportedFormat ".txt") := by
  have h := (analyze_file_error_semantics ⟨"data.txt", true, SourceContent.other⟩ none).2.1.mpr
    ⟨rfl, by decide⟩
  have he : pyLower (pathSuffix "data.txt") = ".txt" := rfl
  rw [he] at h
  exact h

/-! ## Claim C9 -/

/-- Claim C9: classify_row and analyze_file are pure functions of their
inputs — the embedding carries no hidden state — so running either twice on
the same unmodified input yields identical results: the same label, and the
same analysis (selected sheet, header row, notes with the recorded score,
confidence) or error. -/
theorem classify_and_locate_deterministic :
    (∀ row : Row, classify_row row = classify_row row)
  ∧ (∀ (src : Source) (hint : Option String),
      analyze_file src hint = analyze_file src hint) :=
  ⟨fun _ => rfl, fun _ _ => rfl⟩

/-! ## Claim C10 -/

/-- A table with a single column whose header is the four-digit year 2019
and whose cells are numeric. -/
def c10Df : DataFrame := [⟨Value.vStr "2019", [Value.vInt 1, Value.vInt 2]⟩]

/-- Claim C10: the year and value role lists are not guaranteed disjoint —
on c10Df the token pass finds no value column, so the numeric fallback
scans every column including the already-collected year column, and the
column labelled 2019 ends up in both lists. -/
theorem year_value_columns_overlap :
    (detect_year_and_value_columns c10Df).year_columns = [Value.vStr "2019"] ∧
    (detect_year_and_value_columns c10Df).value_columns = [Value.vStr "2019"] := by
  decide

end EvidencePipeline
